import Mathlib

/-
Verification of the LD_FZJH screen-automation driver.

The repository contains two near-identical drivers for a game-automation bot:
`main.py` (backed by the Dnconsole console API) and `mokuai_fz.py` (backed by
the dnconsole.exe command line).  Both expose the same operations:
take_screenshot, find_template, click, click_template, swipe,
wait_for_template, run_daily_tasks and main_loop.

The embedding below models images abstractly (the correlation primitive
cv2.matchTemplate is an external black box, represented by an arbitrary score
function), backend outcomes as explicit "world" streams, and the actions sent
to the emulator as traces.  Exceptions that the Python code lets escape are
modelled with Except; operations whose bodies catch every exception are total
functions.  Elapsed time inside the polling loop is modelled with exact
rational arithmetic: sleeps advance the clock by their argument and each
capture attempt costs a backend-dependent amount.
-/

namespace LDFZJH

/-- Grayscale image: height, width and pixel data, as produced by cv2.imread. -/
structure Image where
  h : ℕ
  w : ℕ
  px : ℕ → ℕ → ℤ

/-- Black-box correlation primitive (cv2.matchTemplate with TM_CCOEFF_NORMED):
given the screenshot, the template and a top-left position, the score of the
template at that position.  The repository treats it as an external library. -/
abbrev ScoreFn := Image → Image → ℕ × ℕ → ℚ

/-- The in-memory template dictionary self.templates.  The outer Option is
dictionary membership; the inner Option is the cv2.imread result stored for the
file, which is None when the file could not be decoded. -/
abbrev TemplMap := String → Option (Option Image)

/-- Exceptions raised by cv2.matchTemplate (cv2.error): the template argument
is not a valid image, or the template is larger than the search image. -/
inductive CvError where
  | invalidTemplate
  | templateTooLarge
deriving DecidableEq

deriving instance DecidableEq for Except

/-- Actions issued to the emulator control surface. -/
inductive Action where
  | capture
  | tap (x y : ℤ)
  | swipeAct (x1 y1 x2 y2 dur : ℤ)
deriving DecidableEq

/-- A directory entry seen by _load_templates: filename stem and extension. -/
structure FileName where
  stem : String
  ext : String

/-- The extensions accepted by _load_templates. -/
def imageExts : List String := [".png", ".jpg", ".jpeg"]

/-- _load_templates (both files): fold over the directory listing, storing the
cv2.imread result of each image file under its filename stem; a later file with
the same stem overwrites an earlier one, as in a Python dict. -/
def load_templates (files : List (FileName × Option Image)) : TemplMap :=
  files.foldl
    (fun m f =>
      if f.1.ext ∈ imageExts then
        fun n => if n = f.1.stem then some f.2 else m n
      else m)
    (fun _ => none)

/-- The positions scanned by cv2.matchTemplate for an H×W screenshot and an
h×w template, in row-major order: x in [0, W-w], y in [0, H-h]. -/
def resultPositions (H W h w : ℕ) : List (ℕ × ℕ) :=
  (List.range (H - h + 1)).flatMap fun y =>
    (List.range (W - w + 1)).map fun x => (x, y)

/-- cv2.minMaxLoc on the score matrix: the maximum score and the first position
(in scan order) attaining it; none only on an empty position list. -/
def bestMatch (f : ℕ × ℕ → ℚ) : List (ℕ × ℕ) → Option ((ℕ × ℕ) × ℚ)
  | [] => none
  | p :: ps =>
    match bestMatch f ps with
    | none => some (p, f p)
    | some (q, v) => if f p < v then some (q, v) else some (p, f p)

/-- find_template (identical in main.py and mokuai_fz.py).  Returns none when
the name is absent from the dictionary or the screenshot cannot be read; raises
cv2.error (modelled as Except.error) when the stored entry is not a valid image
or is larger than the screenshot; otherwise compares the global maximum score
against the threshold and returns the center of the best-matching region. -/
def find_template (tm : TemplMap) (scr : Option Image) (score : ScoreFn)
    (name : String) (thr : ℚ) : Except CvError (Option (ℕ × ℕ)) :=
  match tm name with
  | none => .ok none
  | some tOpt =>
    match scr with
    | none => .ok none
    | some s =>
      match tOpt with
      | none => .error .invalidTemplate
      | some tp =>
        if s.h < tp.h ∨ s.w < tp.w then .error .templateTooLarge
        else
          match bestMatch (score s tp) (resultPositions s.h s.w tp.h tp.w) with
          | none => .ok none
          | some (loc, maxv) =>
            if thr ≤ maxv then .ok (some (loc.1 + tp.w / 2, loc.2 + tp.h / 2))
            else .ok none

/-- What one capture attempt yields: whether take_screenshot reported success,
and what find_template computes from the screenshot file afterwards. -/
abbrev AttFn := ℕ → Bool × Except CvError (Option (ℕ × ℕ))

/-- Prepend the capture action of the current attempt to a loop result. -/
def withCapture (r : Option (Except CvError Bool × ℕ × ℚ × List Action)) :
    Option (Except CvError Bool × ℕ × ℚ × List Action) :=
  r.map fun x => (x.1, x.2.1, x.2.2.1, Action.capture :: x.2.2.2)

/-- The wait_for_template polling loop (identical in both files): while the
elapsed time is below the timeout, capture, look for the template (returning
true at once on a match, propagating a matching exception), and otherwise sleep
for the interval and retry.  Each attempt costs `cost` seconds of clock time
on top of the interval sleep.  The result carries the loop outcome, the next
capture index, the elapsed time at return and the trace of capture commands;
fuel bounds the recursion and none marks fuel exhaustion. -/
def waitLoop (att : AttFn) (timeout interval cost : ℚ) :
    ℕ → ℕ → ℚ → Option (Except CvError Bool × ℕ × ℚ × List Action)
  | 0, _, _ => none
  | fuel + 1, k, t =>
    if t < timeout then
      if (att k).1 then
        match (att k).2 with
        | .error e => some (.error e, k + 1, t + cost, [Action.capture])
        | .ok (some _) => some (.ok true, k + 1, t + cost, [Action.capture])
        | .ok none =>
          withCapture (waitLoop att timeout interval cost fuel (k + 1) (t + cost + interval))
      else
        withCapture (waitLoop att timeout interval cost fuel (k + 1) (t + cost + interval))
    else some (.ok false, k, t, [])

/-- Enough fuel for waitLoop to reach its timeout. -/
def fuelFor (timeout interval cost : ℚ) : ℕ :=
  (Int.toNat ⌈timeout / (interval + cost)⌉) + 1

/-- Backend observation for main.py: whether Dnconsole.dnld raised, whether the
screenshot file exists afterwards, and what cv2.imread returns for it. -/
structure ObsA where
  capRaises : Bool
  fileExists : Bool
  img : Option Image

/-- Backend observation for mokuai_fz.py: the subprocess outcome (none when the
call raised, otherwise the return code), file existence, and the imread
result. -/
structure ObsB where
  capResult : Option ℤ
  fileExists : Bool
  img : Option Image

abbrev WorldA := ℕ → ObsA
abbrev WorldB := ℕ → ObsB

/-- The capture command succeeded, main.py transport: Dnconsole.dnld did not
raise. -/
def succA (o : ObsA) : Bool := !o.capRaises

/-- The capture command succeeded, mokuai_fz.py transport: the subprocess did
not raise and returned code 0. -/
def succB (o : ObsB) : Bool :=
  match o.capResult with
  | none => false
  | some rc => rc == 0

/-- Correspondence between the two backends: same capture-success outcome, same
screenshot-file existence, same decoded screenshot. -/
def RObs (a : ObsA) (b : ObsB) : Prop :=
  succA a = succB b ∧ a.fileExists = b.fileExists ∧ a.img = b.img

/-- Pointwise backend correspondence between worlds. -/
def RWorld (wA : WorldA) (wB : WorldB) : Prop :=
  ∀ k, RObs (wA k) (wB k)

namespace MainPy

/-- take_screenshot in main.py: issue the capture command inside try/except
(an exception yields False), then report whether the screenshot file exists. -/
def take_screenshot (o : ObsA) : Bool := !o.capRaises && o.fileExists

/-- click in main.py: issue a tap through Dnconsole.touch; every exception is
caught, so the operation always completes having attempted one tap. -/
def click (x y : ℤ) : List Action := [Action.tap x y]

/-- swipe in main.py: issue a drag through Dnconsole.swipe; exceptions
caught. -/
def swipe (x1 y1 x2 y2 dur : ℤ) : List Action := [Action.swipeAct x1 y1 x2 y2 dur]

/-- click_template in main.py: capture, then locate, then click the match
center; returns False when capture fails or no match, and propagates a
cv2.error raised by find_template.  The ℕ component is the next capture index,
the list the actions issued. -/
def click_template (tm : TemplMap) (score : ScoreFn) (w : WorldA) (k : ℕ)
    (name : String) (thr : ℚ) : Except CvError Bool × ℕ × List Action :=
  if take_screenshot (w k) then
    match find_template tm (w k).img score name thr with
    | .error e => (.error e, k + 1, [Action.capture])
    | .ok none => (.ok false, k + 1, [Action.capture])
    | .ok (some pos) => (.ok true, k + 1, [Action.capture] ++ click pos.1 pos.2)
  else (.ok false, k + 1, [Action.capture])

/-- One wait_for_template attempt of main.py at capture index k. -/
def att (tm : TemplMap) (score : ScoreFn) (w : WorldA) (name : String) (thr : ℚ) : AttFn :=
  fun k => (take_screenshot (w k), find_template tm (w k).img score name thr)

/-- wait_for_template in main.py.  The per-attempt clock cost is the backend
cost `bc` plus 1: take_screenshot contains a fixed time.sleep(1) settle wait. -/
def wait_for_template (tm : TemplMap) (score : ScoreFn) (w : WorldA) (k : ℕ)
    (name : String) (timeout interval bc thr : ℚ) :
    Option (Except CvError Bool × ℕ × ℚ × List Action) :=
  waitLoop (att tm score w name thr) timeout interval (bc + 1)
    (fuelFor timeout interval (bc + 1)) k 0

/-- run_daily_tasks in main.py: click the task button; on success wait for the
task interface (timeout 10, interval 1), then click the daily task, then the
reward; finally tap the back-button coordinate (50, 50).  A cv2.error raised
by any step propagates, aborting the script before the final tap.  none marks
fuel exhaustion of the inner wait loop. -/
def run_daily_tasks (tm : TemplMap) (score : ScoreFn) (w : WorldA) (bc : ℚ)
    (k : ℕ) : Option (Option CvError × ℕ × List Action) :=
  match click_template tm score w k "task_button" 0.8 with
  | (.error e, k1, tr1) => some (some e, k1, tr1)
  | (.ok false, k1, tr1) => some (none, k1, tr1 ++ [Action.tap 50 50])
  | (.ok true, k1, tr1) =>
    match wait_for_template tm score w k1 "task_interface" 10 1 bc 0.8 with
    | none => none
    | some (.error e, k2, _, tr2) => some (some e, k2, tr1 ++ tr2)
    | some (.ok false, k2, _, tr2) => some (none, k2, tr1 ++ tr2 ++ [Action.tap 50 50])
    | some (.ok true, k2, _, tr2) =>
      match click_template tm score w k2 "daily_task" 0.8 with
      | (.error e, k3, tr3) => some (some e, k3, tr1 ++ tr2 ++ tr3)
      | (.ok false, k3, tr3) => some (none, k3, tr1 ++ tr2 ++ tr3 ++ [Action.tap 50 50])
      | (.ok true, k3, tr3) =>
        match click_template tm score w k3 "claim_reward" 0.8 with
        | (.error e, k4, tr4) => some (some e, k4, tr1 ++ tr2 ++ tr3 ++ tr4)
        | (.ok _, k4, tr4) =>
          some (none, k4, tr1 ++ tr2 ++ tr3 ++ tr4 ++ [Action.tap 50 50])

/-- main_loop in main.py, observed for n iterations: run run_daily_tasks
repeatedly; an escaping exception is caught at the top level and terminates the
loop (Bool component true). -/
def main_loop_n (tm : TemplMap) (score : ScoreFn) (w : WorldA) (bc : ℚ) :
    ℕ → ℕ → Option (ℕ × List Action × Bool)
  | 0, k => some (k, [], false)
  | n + 1, k =>
    match run_daily_tasks tm score w bc k with
    | none => none
    | some (some _, k1, tr) => some (k1, tr, true)
    | some (none, k1, tr) =>
      match main_loop_n tm score w bc n k1 with
      | none => none
      | some (k2, tr2, b) => some (k2, tr ++ tr2, b)

end MainPy

namespace Mokuai

/-- take_screenshot in mokuai_fz.py: run the dnconsole.exe command inside
try/except (an exception yields False); success requires return code 0 and the
screenshot file existing. -/
def take_screenshot (o : ObsB) : Bool :=
  match o.capResult with
  | none => false
  | some rc => (rc == 0) && o.fileExists

/-- click in mokuai_fz.py: issue a tap through the dnconsole.exe command line;
exceptions caught. -/
def click (x y : ℤ) : List Action := [Action.tap x y]

/-- swipe in mokuai_fz.py: issue a drag through the command line; exceptions
caught. -/
def swipe (x1 y1 x2 y2 dur : ℤ) : List Action := [Action.swipeAct x1 y1 x2 y2 dur]

/-- click_template in mokuai_fz.py (same body as main.py over the CLI
backend). -/
def click_template (tm : TemplMap) (score : ScoreFn) (w : WorldB) (k : ℕ)
    (name : String) (thr : ℚ) : Except CvError Bool × ℕ × List Action :=
  if take_screenshot (w k) then
    match find_template tm (w k).img score name thr with
    | .error e => (.error e, k + 1, [Action.capture])
    | .ok none => (.ok false, k + 1, [Action.capture])
    | .ok (some pos) => (.ok true, k + 1, [Action.capture] ++ click pos.1 pos.2)
  else (.ok false, k + 1, [Action.capture])

/-- One wait_for_template attempt of mokuai_fz.py at capture index k. -/
def att (tm : TemplMap) (score : ScoreFn) (w : WorldB) (name : String) (thr : ℚ) : AttFn :=
  fun k => (take_screenshot (w k), find_template tm (w k).img score name thr)

/-- wait_for_template in mokuai_fz.py.  Its take_screenshot has no settle
sleep, so an attempt costs only the backend cost `bc`. -/
def wait_for_template (tm : TemplMap) (score : ScoreFn) (w : WorldB) (k : ℕ)
    (name : String) (timeout interval bc thr : ℚ) :
    Option (Except CvError Bool × ℕ × ℚ × List Action) :=
  waitLoop (att tm score w name thr) timeout interval bc
    (fuelFor timeout interval bc) k 0

/-- run_daily_tasks in mokuai_fz.py (same body as main.py over the CLI
backend). -/
def run_daily_tasks (tm : TemplMap) (score : ScoreFn) (w : WorldB) (bc : ℚ)
    (k : ℕ) : Option (Option CvError × ℕ × List Action) :=
  match click_template tm score w k "task_button" 0.8 with
  | (.error e, k1, tr1) => some (some e, k1, tr1)
  | (.ok false, k1, tr1) => some (none, k1, tr1 ++ [Action.tap 50 50])
  | (.ok true, k1, tr1) =>
    match wait_for_template tm score w k1 "task_interface" 10 1 bc 0.8 with
    | none => none
    | some (.error e, k2, _, tr2) => some (some e, k2, tr1 ++ tr2)
    | some (.ok false, k2, _, tr2) => some (none, k2, tr1 ++ tr2 ++ [Action.tap 50 50])
    | some (.ok true, k2, _, tr2) =>
      match click_template tm score w k2 "daily_task" 0.8 with
      | (.error e, k3, tr3) => some (some e, k3, tr1 ++ tr2 ++ tr3)
      | (.ok false, k3, tr3) => some (none, k3, tr1 ++ tr2 ++ tr3 ++ [Action.tap 50 50])
      | (.ok true, k3, tr3) =>
        match click_template tm score w k3 "claim_reward" 0.8 with
        | (.error e, k4, tr4) => some (some e, k4, tr1 ++ tr2 ++ tr3 ++ tr4)
        | (.ok _, k4, tr4) =>
          some (none, k4, tr1 ++ tr2 ++ tr3 ++ tr4 ++ [Action.tap 50 50])

/-- main_loop in mokuai_fz.py, observed for n iterations. -/
def main_loop_n (tm : TemplMap) (score : ScoreFn) (w : WorldB) (bc : ℚ) :
    ℕ → ℕ → Option (ℕ × List Action × Bool)
  | 0, k => some (k, [], false)
  | n + 1, k =>
    match run_daily_tasks tm score w bc k with
    | none => none
    | some (some _, k1, tr) => some (k1, tr, true)
    | some (none, k1, tr) =>
      match main_loop_n tm score w bc n k1 with
      | none => none
      | some (k2, tr2, b) => some (k2, tr ++ tr2, b)

end Mokuai

/-- A 1×1 image, used as a concrete screenshot and template. -/
def img1 : Image := ⟨1, 1, fun _ _ => 0⟩

/-- A 2×2 image, used as a concrete oversized template. -/
def img2 : Image := ⟨2, 2, fun _ _ => 0⟩

/-- A score function that assigns 0 everywhere. -/
def score0 : ScoreFn := fun _ _ _ => 0

/-- A score function that assigns 1 everywhere. -/
def score1 : ScoreFn := fun _ _ _ => 1

/-- The empty template dictionary. -/
def tmE : TemplMap := fun _ => none

/-- A dictionary whose task_button entry is an image file that failed to
decode (cv2.imread returned None). -/
def tmBad : TemplMap := fun n => if n = "task_button" then some none else none

/-- A dictionary whose entry a is a 2×2 template (larger than img1). -/
def tmBig : TemplMap := fun n => if n = "a" then some (some img2) else none

/-- A dictionary with a single valid 1×1 template named t. -/
def tm1 : TemplMap := fun n => if n = "t" then some (some img1) else none

/-- A main.py world where every capture succeeds and the screenshot decodes to
img1. -/
def wGoodA : WorldA := fun _ => ⟨false, true, some img1⟩

/-- A main.py world where the capture command always raises. -/
def wBadA : WorldA := fun _ => ⟨true, true, some img1⟩

/-- A main.py world where captures succeed but the screenshot never decodes. -/
def wNoneA : WorldA := fun _ => ⟨false, true, none⟩

/-- A mokuai_fz.py world matching wNoneA under the backend correspondence. -/
def wNoneB : WorldB := fun _ => ⟨some 0, true, none⟩


/-! ## Helper lemmas -/

/-- bestMatch on a nonempty position list returns the first position attaining
the global maximum score, together with that maximum. -/
theorem bestMatch_spec (f : ℕ × ℕ → ℚ) :
    ∀ l : List (ℕ × ℕ), l ≠ [] →
      ∃ q v, bestMatch f l = some (q, v) ∧ q ∈ l ∧ f q = v ∧ ∀ p ∈ l, f p ≤ v := by
  intro l
  induction l with
  | nil => intro h; exact absurd rfl h
  | cons p ps ih =>
    intro _
    by_cases hps : ps = []
    · subst hps
      refine ⟨p, f p, by simp [bestMatch], by simp, rfl, ?_⟩
      intro q hq
      rcases List.mem_singleton.mp hq with rfl
      exact le_refl _
    · obtain ⟨q, v, hbm, hmem, hfq, hub⟩ := ih hps
      by_cases hlt : f p < v
      · refine ⟨q, v, ?_, List.mem_cons_of_mem _ hmem, hfq, ?_⟩
        · simp only [bestMatch, hbm]
          rw [if_pos hlt]
        · intro r hr
          rcases List.mem_cons.mp hr with rfl | hr2
          · exact le_of_lt hlt
          · exact hub r hr2
      · push_neg at hlt
        refine ⟨p, f p, ?_, List.mem_cons_self _ _, rfl, ?_⟩
        · simp only [bestMatch, hbm]
          rw [if_neg (not_lt.mpr hlt)]
        · intro r hr
          rcases List.mem_cons.mp hr with rfl | hr2
          · exact le_refl _
          · exact (hub r hr2).trans hlt

/-- Every admissible top-left position is scanned. -/
theorem mem_resultPositions {H W h w x y : ℕ}
    (hx : x < W - w + 1) (hy : y < H - h + 1) :
    (x, y) ∈ resultPositions H W h w := by
  unfold resultPositions
  rw [List.mem_flatMap]
  exact ⟨y, List.mem_range.mpr hy, List.mem_map.mpr ⟨x, List.mem_range.mpr hx, rfl⟩⟩

/-- The scanned position list is never empty. -/
theorem resultPositions_ne_nil (H W h w : ℕ) : resultPositions H W h w ≠ [] :=
  List.ne_nil_of_mem (mem_resultPositions (Nat.succ_pos _) (Nat.succ_pos _))

/-- find_template in its main branch: name present with a valid template that
fits inside a readable screenshot. -/
theorem find_template_main (s tp : Image) (tm : TemplMap) (score : ScoreFn)
    (name : String) (thr : ℚ) (htm : tm name = some (some tp))
    (hdim : ¬ (s.h < tp.h ∨ s.w < tp.w)) :
    find_template tm (some s) score name thr
      = match bestMatch (score s tp) (resultPositions s.h s.w tp.h tp.w) with
        | none => .ok none
        | some (loc, maxv) =>
          if thr ≤ maxv then .ok (some (loc.1 + tp.w / 2, loc.2 + tp.h / 2))
          else .ok none := by
  simp only [find_template, htm]
  rw [if_neg hdim]


/-- If the attempt at index k matches (capture succeeded and the template was
located), the loop returns true immediately on that iteration. -/
theorem waitLoop_first_match (att : AttFn) (timeout interval cost : ℚ)
    (fuel k : ℕ) (t : ℚ) (pt : ℕ × ℕ)
    (ht : t < timeout) (hmatch : att k = (true, .ok (some pt))) :
    waitLoop att timeout interval cost (fuel + 1) k t
      = some (.ok true, k + 1, t + cost, [Action.capture]) := by
  have h1 : (att k).1 = true := by rw [hmatch]
  have h2 : (att k).2 = .ok (some pt) := by rw [hmatch]
  simp [waitLoop, ht, h1, h2]

/-- With fuel covering the timeout, the loop always returns. -/
theorem waitLoop_isSome (att : AttFn) (timeout interval cost : ℚ)
    (_hstep : 0 < interval + cost) :
    ∀ (fuel k : ℕ) (t : ℚ), timeout ≤ t + (fuel : ℚ) * (interval + cost) →
      ∃ r, waitLoop att timeout interval cost (fuel + 1) k t = some r := by
  intro fuel
  induction fuel with
  | zero =>
    intro k t hle
    have ht : ¬ t < timeout := by
      simp only [Nat.cast_zero, zero_mul, add_zero] at hle
      exact not_lt.mpr hle
    exact ⟨(.ok false, k, t, []), by simp [waitLoop, ht]⟩
  | succ f ih =>
    intro k t hle
    by_cases ht : t < timeout
    · have hexp : ((f + 1 : ℕ) : ℚ) * (interval + cost)
          = (f : ℚ) * (interval + cost) + (interval + cost) := by
        push_cast
        ring
      have hrec : timeout ≤ (t + cost + interval) + (f : ℚ) * (interval + cost) := by
        rw [hexp] at hle
        linarith
      obtain ⟨r, hr⟩ := ih (k + 1) (t + cost + interval) hrec
      cases hb : (att k).1
      · have key : waitLoop att timeout interval cost (f + 1 + 1) k t
            = withCapture (waitLoop att timeout interval cost (f + 1) (k + 1)
                (t + cost + interval)) := by
          simp only [waitLoop]
          rw [if_pos ht, hb]
          simp
        rw [key, hr]
        exact ⟨_, rfl⟩
      · cases h2 : (att k).2 with
        | error e =>
          exact ⟨(.error e, k + 1, t + cost, [Action.capture]),
            by simp [waitLoop, ht, hb, h2]⟩
        | ok o =>
          cases o with
          | none =>
            have key : waitLoop att timeout interval cost (f + 1 + 1) k t
                = withCapture (waitLoop att timeout interval cost (f + 1) (k + 1)
                    (t + cost + interval)) := by
              simp only [waitLoop]
              rw [if_pos ht, hb]
              simp [h2]
            rw [key, hr]
            exact ⟨_, rfl⟩
          | some pt =>
            exact ⟨(.ok true, k + 1, t + cost, [Action.capture]),
              by simp [waitLoop, ht, hb, h2]⟩
    · exact ⟨(.ok false, k, t, []), by simp [waitLoop, ht]⟩

/-- The fuel chosen by fuelFor covers the timeout. -/
theorem fuelFor_spec (timeout interval cost : ℚ) (hstep : 0 < interval + cost) :
    ∃ m, fuelFor timeout interval cost = m + 1
      ∧ timeout ≤ 0 + (m : ℚ) * (interval + cost) := by
  refine ⟨Int.toNat ⌈timeout / (interval + cost)⌉, rfl, ?_⟩
  have h1 : timeout / (interval + cost) ≤ (⌈timeout / (interval + cost)⌉ : ℚ) :=
    Int.le_ceil _
  have h2 : ((⌈timeout / (interval + cost)⌉ : ℤ) : ℚ)
      ≤ ((Int.toNat ⌈timeout / (interval + cost)⌉ : ℕ) : ℚ) := by
    exact_mod_cast Int.self_le_toNat _
  have h3 := (div_le_iff₀ hstep).mp (h1.trans h2)
  linarith

/-- With fuelFor fuel, wait_for_template always returns. -/
theorem waitLoop_fuelFor_isSome (att : AttFn) (timeout interval cost : ℚ)
    (hstep : 0 < interval + cost) (k : ℕ) :
    ∃ r, waitLoop att timeout interval cost (fuelFor timeout interval cost) k 0
      = some r := by
  obtain ⟨m, hm, hb⟩ := fuelFor_spec timeout interval cost hstep
  rw [hm]
  exact waitLoop_isSome att timeout interval cost hstep m k 0 hb

/-- If no attempt ever matches (and none raises), the loop runs to its timeout
and returns false; the elapsed time at return is at least the timeout and,
unless the loop never ran, less than timeout plus one attempt period. -/
theorem waitLoop_never (att : AttFn) (timeout interval cost : ℚ)
    (hstep : 0 < interval + cost)
    (hnever : ∀ j, (att j).1 = false ∨ (att j).2 = .ok none) :
    ∀ (fuel k : ℕ) (t : ℚ), timeout ≤ t + (fuel : ℚ) * (interval + cost) →
      ∃ n e, waitLoop att timeout interval cost (fuel + 1) k t
          = some (.ok false, k + n, e, List.replicate n Action.capture)
        ∧ t ≤ e ∧ timeout ≤ e ∧ (e = t ∨ e < timeout + (interval + cost)) := by
  intro fuel
  induction fuel with
  | zero =>
    intro k t hle
    simp only [Nat.cast_zero, zero_mul, add_zero] at hle
    have ht : ¬ t < timeout := not_lt.mpr hle
    exact ⟨0, t, by simp [waitLoop, ht], le_refl _, hle, Or.inl rfl⟩
  | succ f ih =>
    intro k t hle
    by_cases ht : t < timeout
    · have hexp : ((f + 1 : ℕ) : ℚ) * (interval + cost)
          = (f : ℚ) * (interval + cost) + (interval + cost) := by
        push_cast
        ring
      have hrec : timeout ≤ (t + cost + interval) + (f : ℚ) * (interval + cost) := by
        rw [hexp] at hle
        linarith
      obtain ⟨n, e, hr, hte, hto, hdis⟩ := ih (k + 1) (t + cost + interval) hrec
      have key : waitLoop att timeout interval cost (f + 1 + 1) k t
          = withCapture (waitLoop att timeout interval cost (f + 1) (k + 1)
              (t + cost + interval)) := by
        cases hb : (att k).1
        · simp [waitLoop, ht, hb]
        · have h2 : (att k).2 = .ok none := by
            rcases hnever k with h | h
            · rw [hb] at h
              exact absurd h (by simp)
            · exact h
          simp [waitLoop, ht, hb, h2]
      refine ⟨n + 1, e, ?_, ?_, hto, ?_⟩
      · rw [key, hr]
        simp only [withCapture, Option.map_some]
        have hk : k + 1 + n = k + (n + 1) := by omega
        rw [hk, List.replicate_succ]
        rfl
      · have : t ≤ t + cost + interval := by linarith
        exact this.trans hte
      · rcases hdis with heq | hlt
        · exact Or.inr (by rw [heq]; linarith)
        · exact Or.inr hlt
    · have hle2 : timeout ≤ t := not_lt.mp ht
      exact ⟨0, t, by simp [waitLoop, ht], le_refl _, hle2, Or.inl rfl⟩


/-- Corresponding backend observations give the same take_screenshot result. -/
theorem take_screenshot_eq {a : ObsA} {b : ObsB} (h : RObs a b) :
    MainPy.take_screenshot a = Mokuai.take_screenshot b := by
  obtain ⟨h1, h2, _⟩ := h
  unfold succA succB at h1
  unfold MainPy.take_screenshot Mokuai.take_screenshot
  cases hcb : b.capResult with
  | none =>
    rw [hcb] at h1
    simp only at h1
    rw [h1]
    simp
  | some rc =>
    rw [hcb] at h1
    simp only at h1
    rw [h1, h2]

/-- Corresponding worlds give the same per-attempt outcomes. -/
theorem att_eq {wA : WorldA} {wB : WorldB} (h : RWorld wA wB)
    (tm : TemplMap) (score : ScoreFn) (name : String) (thr : ℚ) :
    MainPy.att tm score wA name thr = Mokuai.att tm score wB name thr := by
  funext k
  unfold MainPy.att Mokuai.att
  rw [take_screenshot_eq (h k), (h k).2.2]

/-- Corresponding worlds give the same click_template result and actions. -/
theorem click_template_eq {wA : WorldA} {wB : WorldB} (h : RWorld wA wB)
    (tm : TemplMap) (score : ScoreFn) (k : ℕ) (name : String) (thr : ℚ) :
    MainPy.click_template tm score wA k name thr
      = Mokuai.click_template tm score wB k name thr := by
  unfold MainPy.click_template Mokuai.click_template
  rw [take_screenshot_eq (h k), (h k).2.2]
  rfl

/-- Corresponding worlds give the same wait_for_template outcome once the
backend cost accounts for main.py's extra one-second settle sleep. -/
theorem wait_for_template_eq {wA : WorldA} {wB : WorldB} (h : RWorld wA wB)
    (tm : TemplMap) (score : ScoreFn) (k : ℕ) (name : String)
    (timeout interval bc thr : ℚ) :
    MainPy.wait_for_template tm score wA k name timeout interval bc thr
      = Mokuai.wait_for_template tm score wB k name timeout interval (bc + 1) thr := by
  unfold MainPy.wait_for_template Mokuai.wait_for_template
  rw [att_eq h]

/-- Corresponding worlds give the same run_daily_tasks outcome, with the same
cost adjustment. -/
theorem run_daily_tasks_eq {wA : WorldA} {wB : WorldB} (h : RWorld wA wB)
    (tm : TemplMap) (score : ScoreFn) (bc : ℚ) (k : ℕ) :
    MainPy.run_daily_tasks tm score wA bc k
      = Mokuai.run_daily_tasks tm score wB (bc + 1) k := by
  unfold MainPy.run_daily_tasks Mokuai.run_daily_tasks
  simp only [click_template_eq h, wait_for_template_eq h]

/-- Corresponding worlds give the same observed main loop, with the same cost
adjustment. -/
theorem main_loop_n_eq {wA : WorldA} {wB : WorldB} (h : RWorld wA wB)
    (tm : TemplMap) (score : ScoreFn) (bc : ℚ) :
    ∀ n k, MainPy.main_loop_n tm score wA bc n k
      = Mokuai.main_loop_n tm score wB (bc + 1) n k := by
  intro n
  induction n with
  | zero => intro k; rfl
  | succ m ih =>
    intro k
    unfold MainPy.main_loop_n Mokuai.main_loop_n
    simp only [run_daily_tasks_eq h, ih]


/-! ## Claim theorems -/

/-- C5: locate-template returns none when the requested name is absent from the
loaded template map or the screenshot file cannot be read; in particular, with
the template set loaded from an empty or missing directory it returns none for
every name. -/
theorem find_template_none_on_missing :
    ∀ (tm : TemplMap) (scr : Option Image) (score : ScoreFn) (name : String) (thr : ℚ),
      (tm name = none → find_template tm scr score name thr = .ok none)
      ∧ (scr = none → find_template tm scr score name thr = .ok none)
      ∧ (∀ name2, find_template (load_templates []) scr score name2 thr = .ok none) := by
  intro tm scr score name thr
  refine ⟨?_, ?_, ?_⟩
  · intro h
    simp [find_template, h]
  · intro h
    cases htm : tm name with
    | none => simp [find_template, htm]
    | some t => simp [find_template, htm, h]
  · intro name2
    simp [find_template, load_templates]

/-- Witness for C5: a concrete lookup of a name absent from the map. -/
theorem find_template_none_on_missing_witness :
    find_template tmE (some img1) score0 "x" 0.8 = .ok none :=
  (find_template_none_on_missing tmE (some img1) score0 "x" 0.8).1 rfl

/-- C6: capture-screen returns true exactly when the capture command succeeded
and the screenshot file exists afterwards, in both drivers; a command error
(an exception, or for the CLI driver a nonzero return code) or a missing file
yields false rather than an escaping exception. -/
theorem take_screenshot_true_iff :
    (∀ o : ObsA, MainPy.take_screenshot o = true
      ↔ (o.capRaises = false ∧ o.fileExists = true))
    ∧ (∀ o : ObsB, Mokuai.take_screenshot o = true
      ↔ (o.capResult = some 0 ∧ o.fileExists = true)) := by
  constructor
  · intro o
    obtain ⟨cr, fe, i⟩ := o
    cases cr <;> cases fe <;> simp [MainPy.take_screenshot]
  · intro o
    obtain ⟨res, fe, i⟩ := o
    cases res with
    | none => simp [Mokuai.take_screenshot]
    | some rc =>
      cases fe <;> simp [Mokuai.take_screenshot, beq_iff_eq]

/-- Witness for C6: a successful capture observation evaluates to true. -/
theorem take_screenshot_true_iff_witness :
    MainPy.take_screenshot ⟨false, true, none⟩ = true :=
  (take_screenshot_true_iff.1 ⟨false, true, none⟩).mpr ⟨rfl, rfl⟩

/-- C9: locate-template is antitone in the threshold: a position returned at
threshold t is returned unchanged at every threshold t2 ≤ t, and a none result
at threshold t stays none at every threshold t2 ≥ t. -/
theorem find_template_threshold_antitone :
    ∀ (tm : TemplMap) (scr : Option Image) (score : ScoreFn) (name : String) (t t2 : ℚ),
      (∀ p, find_template tm scr score name t = .ok (some p) → t2 ≤ t →
        find_template tm scr score name t2 = .ok (some p))
      ∧ (find_template tm scr score name t = .ok none → t ≤ t2 →
        find_template tm scr score name t2 = .ok none) := by
  intro tm scr score name t t2
  constructor
  · intro p hp hle
    cases htm : tm name with
    | none => simp [find_template, htm] at hp
    | some tOpt =>
      cases scr with
      | none => simp [find_template, htm] at hp
      | some s =>
        cases tOpt with
        | none => simp [find_template, htm] at hp
        | some tp =>
          by_cases hdim : s.h < tp.h ∨ s.w < tp.w
          · simp only [find_template, htm] at hp
            rw [if_pos hdim] at hp
            exact absurd hp (by simp)
          · cases hbm : bestMatch (score s tp) (resultPositions s.h s.w tp.h tp.w) with
            | none =>
              rw [find_template_main s tp tm score name t htm hdim, hbm] at hp
              exact absurd hp (by simp)
            | some qv =>
              obtain ⟨q, v⟩ := qv
              have hfind : ∀ th : ℚ, find_template tm (some s) score name th
                  = if th ≤ v then .ok (some (q.1 + tp.w / 2, q.2 + tp.h / 2))
                    else .ok none := by
                intro th
                rw [find_template_main s tp tm score name th htm hdim, hbm]
              rw [hfind t] at hp
              by_cases hthr : t ≤ v
              · rw [if_pos hthr] at hp
                rw [hfind t2, if_pos (hle.trans hthr)]
                exact hp
              · rw [if_neg hthr] at hp
                exact absurd hp (by simp)
  · intro hp hle
    cases htm : tm name with
    | none => simp [find_template, htm]
    | some tOpt =>
      cases scr with
      | none => simp [find_template, htm]
      | some s =>
        cases tOpt with
        | none => simp [find_template, htm] at hp
        | some tp =>
          by_cases hdim : s.h < tp.h ∨ s.w < tp.w
          · simp only [find_template, htm] at hp
            rw [if_pos hdim] at hp
            exact absurd hp (by simp)
          · cases hbm : bestMatch (score s tp) (resultPositions s.h s.w tp.h tp.w) with
            | none =>
              rw [find_template_main s tp tm score name t2 htm hdim, hbm]
            | some qv =>
              obtain ⟨q, v⟩ := qv
              have hfind : ∀ th : ℚ, find_template tm (some s) score name th
                  = if th ≤ v then .ok (some (q.1 + tp.w / 2, q.2 + tp.h / 2))
                    else .ok none := by
                intro th
                rw [find_template_main s tp tm score name th htm hdim, hbm]
              rw [hfind t] at hp
              by_cases hthr : t ≤ v
              · rw [if_pos hthr] at hp
                exact absurd hp (by simp)
              · have hthr2 : ¬ t2 ≤ v := fun h2 => hthr (hle.trans h2)
                rw [hfind t2, if_neg hthr2]

/-- Witness for C9: a match found at threshold 0.8 is also found at the lower
threshold 0. -/
theorem find_template_threshold_antitone_witness :
    find_template tm1 (some img1) score1 "t" 0 = .ok (some (0, 0)) :=
  (find_template_threshold_antitone tm1 (some img1) score1 "t" 0.8 0).1 (0, 0)
    (by with_unfolding_all decide) (by norm_num)

/-- C10: wait-for-template with a nonpositive timeout returns false at once:
the elapsed-time check precedes the first attempt, so no capture or locate is
performed (empty action trace, capture index unchanged), in both drivers. -/
theorem wait_for_template_nonpositive_timeout :
    ∀ (tm : TemplMap) (score : ScoreFn) (name : String)
      (timeout interval bc thr : ℚ) (k : ℕ),
      timeout ≤ 0 →
      (∀ wA : WorldA, MainPy.wait_for_template tm score wA k name timeout interval bc thr
          = some (.ok false, k, 0, []))
      ∧ (∀ wB : WorldB, Mokuai.wait_for_template tm score wB k name timeout interval bc thr
          = some (.ok false, k, 0, [])) := by
  intro tm score name timeout interval bc thr k hto
  have ht : ¬ (0 : ℚ) < timeout := not_lt.mpr hto
  constructor
  · intro wA
    unfold MainPy.wait_for_template fuelFor
    simp [waitLoop, ht]
  · intro wB
    unfold Mokuai.wait_for_template fuelFor
    simp [waitLoop, ht]

/-- Witness for C10: timeout 0 returns false immediately with no actions. -/
theorem wait_for_template_nonpositive_timeout_witness :
    MainPy.wait_for_template tmE score0 wNoneA 0 "x" 0 1 0 0.8
      = some (.ok false, 0, 0, []) :=
  (wait_for_template_nonpositive_timeout tmE score0 "x" 0 1 0 0.8 0 (le_refl 0)).1 wNoneA


/-- C4: for a loaded valid template that fits in a readable screenshot,
locate-template takes the single global-maximum correlation score over all
scanned positions and returns the center of that best region, top-left plus
(w/2, h/2), exactly when the maximum reaches the threshold; below the
threshold it returns none. -/
theorem find_template_global_max_center :
    ∀ (tm : TemplMap) (score : ScoreFn) (name : String) (thr : ℚ) (tp s : Image),
      tm name = some (some tp) → tp.h ≤ s.h → tp.w ≤ s.w →
      ∃ loc maxv,
        loc ∈ resultPositions s.h s.w tp.h tp.w
        ∧ score s tp loc = maxv
        ∧ (∀ p ∈ resultPositions s.h s.w tp.h tp.w, score s tp p ≤ maxv)
        ∧ find_template tm (some s) score name thr
            = .ok (if thr ≤ maxv then some (loc.1 + tp.w / 2, loc.2 + tp.h / 2)
                   else none) := by
  intro tm score name thr tp s htm hh hw
  have hdim : ¬ (s.h < tp.h ∨ s.w < tp.w) :=
    not_or.mpr ⟨not_lt.mpr hh, not_lt.mpr hw⟩
  obtain ⟨q, v, hbm, hmem, hfq, hub⟩ :=
    bestMatch_spec (score s tp) (resultPositions s.h s.w tp.h tp.w)
      (resultPositions_ne_nil _ _ _ _)
  refine ⟨q, v, hmem, hfq, hub, ?_⟩
  rw [find_template_main s tp tm score name thr htm hdim, hbm]
  show (if thr ≤ v then Except.ok (some (q.1 + tp.w / 2, q.2 + tp.h / 2))
        else Except.ok none)
      = Except.ok (if thr ≤ v then some (q.1 + tp.w / 2, q.2 + tp.h / 2) else none)
  by_cases hthr : thr ≤ v
  · rw [if_pos hthr, if_pos hthr]
  · rw [if_neg hthr, if_neg hthr]

/-- Witness for C4: a 1×1 template on a 1×1 screenshot with constant score 1
is found at threshold 0.8 at the center of the unique position. -/
theorem find_template_global_max_center_witness :
    ∃ loc maxv,
      loc ∈ resultPositions img1.h img1.w img1.h img1.w
      ∧ score1 img1 img1 loc = maxv
      ∧ (∀ p ∈ resultPositions img1.h img1.w img1.h img1.w, score1 img1 img1 p ≤ maxv)
      ∧ find_template tm1 (some img1) score1 "t" 0.8
          = .ok (if (0.8 : ℚ) ≤ maxv then some (loc.1 + img1.w / 2, loc.2 + img1.h / 2)
                 else none) :=
  find_template_global_max_center tm1 score1 "t" 0.8 img1 img1 rfl (le_refl _) (le_refl _)

/-- C3: click-template returns false whenever capture-screen fails, and then
no tap is issued; it returns true only when a tap was actually sent at the
matched position.  Both drivers. -/
theorem click_template_capture_gates_click :
    ∀ (tm : TemplMap) (score : ScoreFn) (name : String) (thr : ℚ) (k : ℕ),
      (∀ wA : WorldA, MainPy.take_screenshot (wA k) = false →
        MainPy.click_template tm score wA k name thr
          = (.ok false, k + 1, [Action.capture]))
      ∧ (∀ wA : WorldA, (MainPy.click_template tm score wA k name thr).1 = .ok true →
        ∃ x y, find_template tm (wA k).img score name thr = .ok (some (x, y))
          ∧ (MainPy.click_template tm score wA k name thr).2.2
              = [Action.capture, Action.tap (x : ℤ) (y : ℤ)])
      ∧ (∀ wB : WorldB, Mokuai.take_screenshot (wB k) = false →
        Mokuai.click_template tm score wB k name thr
          = (.ok false, k + 1, [Action.capture]))
      ∧ (∀ wB : WorldB, (Mokuai.click_template tm score wB k name thr).1 = .ok true →
        ∃ x y, find_template tm (wB k).img score name thr = .ok (some (x, y))
          ∧ (Mokuai.click_template tm score wB k name thr).2.2
              = [Action.capture, Action.tap (x : ℤ) (y : ℤ)]) := by
  intro tm score name thr k
  refine ⟨?_, ?_, ?_, ?_⟩
  · intro w h
    unfold MainPy.click_template
    rw [h]
    simp
  · intro w h
    unfold MainPy.click_template at h ⊢
    by_cases hts : MainPy.take_screenshot (w k) = true
    · rw [if_pos hts] at h ⊢
      cases hf : find_template tm (w k).img score name thr with
      | error e => rw [hf] at h; simp at h
      | ok o =>
        cases o with
        | none => rw [hf] at h; simp at h
        | some pos =>
          obtain ⟨x, y⟩ := pos
          exact ⟨x, y, rfl, rfl⟩
    · rw [if_neg hts] at h
      simp at h
  · intro w h
    unfold Mokuai.click_template
    rw [h]
    simp
  · intro w h
    unfold Mokuai.click_template at h ⊢
    by_cases hts : Mokuai.take_screenshot (w k) = true
    · rw [if_pos hts] at h ⊢
      cases hf : find_template tm (w k).img score name thr with
      | error e => rw [hf] at h; simp at h
      | ok o =>
        cases o with
        | none => rw [hf] at h; simp at h
        | some pos =>
          obtain ⟨x, y⟩ := pos
          exact ⟨x, y, rfl, rfl⟩
    · rw [if_neg hts] at h
      simp at h

/-- Witness for C3: with a raising capture command, click_template returns
false and issues no tap. -/
theorem click_template_capture_gates_click_witness :
    MainPy.click_template tmE score0 wBadA 0 "x" 0.8
      = (.ok false, 1, [Action.capture]) :=
  (click_template_capture_gates_click tmE score0 "x" 0.8 0).1 wBadA rfl


/-- Counterexample to C2: locate-template does raise.  With a loaded entry
that failed to decode (stored as None) and a readable screenshot, and likewise
with a loaded template larger than the screenshot, find_template raises
cv2.error: the function body has no try/except. -/
theorem find_template_raises_counterexample :
    find_template tmBad (some img1) score0 "task_button" 0.8
      = .error .invalidTemplate
    ∧ find_template tmBig (some img1) score0 "a" 0.8 = .error .templateTooLarge := by
  constructor
  · rfl
  · with_unfolding_all decide

/-- C2 amended: capture-screen, click-point and swipe convert every failure
into a plain return (they are total on backend observations), and
locate-template returns none for a missing name or unreadable screenshot; but
locate-template raises exactly when the name is present, the screenshot is
readable, and the stored entry is invalid or larger than the screenshot, and
click-template propagates exactly that exception after a successful capture. -/
theorem exception_escape_characterization :
    ∀ (tm : TemplMap) (scr : Option Image) (score : ScoreFn) (name : String) (thr : ℚ),
      ((∃ e, find_template tm scr score name thr = .error e)
        ↔ ∃ s, scr = some s
            ∧ (tm name = some none
               ∨ ∃ tp, tm name = some (some tp) ∧ (s.h < tp.h ∨ s.w < tp.w)))
      ∧ (∀ (w : WorldA) (k : ℕ) (e : CvError),
          (MainPy.click_template tm score w k name thr).1 = .error e
            ↔ MainPy.take_screenshot (w k) = true
              ∧ find_template tm (w k).img score name thr = .error e)
      ∧ (∀ (w : WorldB) (k : ℕ) (e : CvError),
          (Mokuai.click_template tm score w k name thr).1 = .error e
            ↔ Mokuai.take_screenshot (w k) = true
              ∧ find_template tm (w k).img score name thr = .error e) := by
  intro tm scr score name thr
  refine ⟨?_, ?_, ?_⟩
  · cases scr with
    | none =>
      constructor
      · rintro ⟨e, he⟩
        cases htm : tm name with
        | none => simp [find_template, htm] at he
        | some tOpt => simp [find_template, htm] at he
      · rintro ⟨s, hs, _⟩
        exact absurd hs (by simp)
    | some s =>
      constructor
      · rintro ⟨e, he⟩
        cases htm : tm name with
        | none => simp [find_template, htm] at he
        | some tOpt =>
          cases tOpt with
          | none => exact ⟨s, rfl, Or.inl rfl⟩
          | some tp =>
            by_cases hdim : s.h < tp.h ∨ s.w < tp.w
            · exact ⟨s, rfl, Or.inr ⟨tp, rfl, hdim⟩⟩
            · rw [find_template_main s tp tm score name thr htm hdim] at he
              cases hbm : bestMatch (score s tp) (resultPositions s.h s.w tp.h tp.w) with
              | none => rw [hbm] at he; simp at he
              | some qv =>
                obtain ⟨q, v⟩ := qv
                rw [hbm] at he
                by_cases hthr : thr ≤ v
                · rw [show (match some (q, v) with
                      | none => (Except.ok none : Except CvError (Option (ℕ × ℕ)))
                      | some (loc, maxv) =>
                        if thr ≤ maxv then
                          Except.ok (some (loc.1 + tp.w / 2, loc.2 + tp.h / 2))
                        else Except.ok none)
                      = if thr ≤ v then
                          Except.ok (some (q.1 + tp.w / 2, q.2 + tp.h / 2))
                        else Except.ok none from rfl, if_pos hthr] at he
                  simp at he
                · rw [show (match some (q, v) with
                      | none => (Except.ok none : Except CvError (Option (ℕ × ℕ)))
                      | some (loc, maxv) =>
                        if thr ≤ maxv then
                          Except.ok (some (loc.1 + tp.w / 2, loc.2 + tp.h / 2))
                        else Except.ok none)
                      = if thr ≤ v then
                          Except.ok (some (q.1 + tp.w / 2, q.2 + tp.h / 2))
                        else Except.ok none from rfl, if_neg hthr] at he
                  simp at he
      · rintro ⟨s2, hs2, hcase⟩
        have hss : s2 = s := by
          injection hs2 with h
          exact h.symm
        subst hss
        rcases hcase with htm | ⟨tp, htm, hdim⟩
        · exact ⟨.invalidTemplate, by simp [find_template, htm]⟩
        · refine ⟨.templateTooLarge, ?_⟩
          simp only [find_template, htm]
          rw [if_pos hdim]
  · intro w k e
    unfold MainPy.click_template
    by_cases hts : MainPy.take_screenshot (w k) = true
    · rw [if_pos hts]
      cases hf : find_template tm (w k).img score name thr with
      | error e2 =>
        constructor
        · intro h
          simp at h
          subst h
          exact ⟨hts, rfl⟩
        · rintro ⟨_, hf2⟩
          injection hf2 with h2
          subst h2
          rfl
      | ok o =>
        cases o <;>
          · constructor
            · intro h
              simp at h
            · rintro ⟨_, hf2⟩
              simp at hf2
    · rw [if_neg hts]
      constructor
      · intro h
        simp at h
      · rintro ⟨hts2, _⟩
        exact absurd hts2 hts
  · intro w k e
    unfold Mokuai.click_template
    by_cases hts : Mokuai.take_screenshot (w k) = true
    · rw [if_pos hts]
      cases hf : find_template tm (w k).img score name thr with
      | error e2 =>
        constructor
        · intro h
          simp at h
          subst h
          exact ⟨hts, rfl⟩
        · rintro ⟨_, hf2⟩
          injection hf2 with h2
          subst h2
          rfl
      | ok o =>
        cases o <;>
          · constructor
            · intro h
              simp at h
            · rintro ⟨_, hf2⟩
              simp at hf2
    · rw [if_neg hts]
      constructor
      · intro h
        simp at h
      · rintro ⟨hts2, _⟩
        exact absurd hts2 hts

/-- Witness for C2 amended: the characterization instantiated at an invalid
stored entry produces the raising behavior. -/
theorem exception_escape_characterization_witness :
    ∃ e, find_template tmBad (some img1) score0 "task_button" 0.8
      = Except.error e :=
  (exception_escape_characterization tmBad (some img1) score0 "task_button" 0.8).1.mpr
    ⟨img1, rfl, Or.inl rfl⟩


/-- C7: wait-for-template polls capture-then-locate, returning true at once on
the first matching attempt; when the template never matches it returns false
once the elapsed time reaches the timeout, after one capture per attempt with
a fixed interval sleep in between, and the elapsed time at return overshoots
the timeout by less than one attempt period (interval plus per-attempt cost),
hence within one interval for instantaneous attempts. -/
theorem wait_for_template_polls_until_timeout :
    ∀ timeout interval bc : ℚ, 0 < interval + bc →
      (∀ (att2 : AttFn) (fuel k : ℕ) (t : ℚ) (pt : ℕ × ℕ),
        t < timeout → att2 k = (true, .ok (some pt)) →
        waitLoop att2 timeout interval bc (fuel + 1) k t
          = some (.ok true, k + 1, t + bc, [Action.capture]))
      ∧ (∀ (tm : TemplMap) (score : ScoreFn) (w : WorldB) (k : ℕ)
          (name : String) (thr : ℚ),
        (∀ j, Mokuai.take_screenshot (w j) = false
            ∨ find_template tm (w j).img score name thr = .ok none) →
        ∃ n e, Mokuai.wait_for_template tm score w k name timeout interval bc thr
            = some (.ok false, k + n, e, List.replicate n Action.capture)
          ∧ timeout ≤ e ∧ (e = 0 ∨ e < timeout + (interval + bc))) := by
  intro timeout interval bc hstep
  constructor
  · intro att2 fuel k t pt ht hmatch
    exact waitLoop_first_match att2 timeout interval bc fuel k t pt ht hmatch
  · intro tm score w k name thr hnever
    have hnever2 : ∀ j, ((Mokuai.att tm score w name thr) j).1 = false
        ∨ ((Mokuai.att tm score w name thr) j).2 = .ok none := hnever
    obtain ⟨m, hm, hb⟩ := fuelFor_spec timeout interval bc hstep
    unfold Mokuai.wait_for_template
    rw [hm]
    obtain ⟨n, e, hr, _, hto, hdis⟩ :=
      waitLoop_never (Mokuai.att tm score w name thr) timeout interval bc hstep
        hnever2 m k 0 hb
    exact ⟨n, e, hr, hto, hdis⟩

/-- Witness for C7: timeout 2, interval 1, zero attempt cost, never-matching
template: false is returned with elapsed time e, 2 ≤ e < 3. -/
theorem wait_for_template_polls_until_timeout_witness :
    ∃ n e, Mokuai.wait_for_template tmE score0 wNoneB 0 "x" 2 1 0 0.8
        = some (.ok false, 0 + n, e, List.replicate n Action.capture)
      ∧ 2 ≤ e ∧ e < 3 := by
  obtain ⟨n, e, hr, hto, hdis⟩ :=
    (wait_for_template_polls_until_timeout 2 1 0 (by norm_num)).2 tmE score0 wNoneB 0
      "x" 0.8 (fun j => Or.inr rfl)
  refine ⟨n, e, hr, hto, ?_⟩
  rcases hdis with h0 | hlt
  · rw [h0] at hto
    norm_num at hto
  · linarith


/-- Counterexample to C1: when the stored task_button entry is an image that
failed to decode, the very first click_template raises cv2.error, the script
aborts, and the final back-tap at (50, 50) is never issued. -/
theorem run_daily_tasks_aborts_without_back_tap :
    MainPy.run_daily_tasks tmBad score0 wGoodA 0 0
      = some (some CvError.invalidTemplate, 1, [Action.capture])
    ∧ Action.tap 50 50 ∉ [Action.capture] :=
  ⟨by with_unfolding_all decide, by decide⟩

/-- C1 amended: whenever no step raises a template-matching exception (every
step returns a boolean), run-daily-tasks completes and its action trace ends
with exactly one appended back-tap at (50, 50), whatever the boolean outcomes
of the four steps; a raising step instead aborts the script without the tap. -/
theorem run_daily_tasks_back_tap :
    ∀ (tm : TemplMap) (score : ScoreFn) (w : WorldA) (bc : ℚ) (k : ℕ), 0 ≤ bc →
      ∃ r, MainPy.run_daily_tasks tm score w bc k = some r
        ∧ (r.1 = none → ∃ p, r.2.2 = p ++ [Action.tap 50 50]) := by
  intro tm score w bc k hbc
  obtain ⟨c1, h1⟩ : ∃ x, MainPy.click_template tm score w k "task_button" 0.8 = x :=
    ⟨_, rfl⟩
  obtain ⟨res1, k1, tr1⟩ := c1
  unfold MainPy.run_daily_tasks
  cases res1 with
  | error e =>
    simp only [h1]
    exact ⟨(some e, k1, tr1), rfl, fun h => by simp at h⟩
  | ok b =>
    cases b with
    | false =>
      simp only [h1]
      exact ⟨(none, k1, tr1 ++ [Action.tap 50 50]), rfl, fun _ => ⟨tr1, rfl⟩⟩
    | true =>
      obtain ⟨r2, hr2⟩ := waitLoop_fuelFor_isSome
        (MainPy.att tm score w "task_interface" 0.8) 10 1 (bc + 1) (by linarith) k1
      have hw : MainPy.wait_for_template tm score w k1 "task_interface" 10 1 bc 0.8
          = some r2 := hr2
      obtain ⟨res2, k2, e2, tr2⟩ := r2
      cases res2 with
      | error e =>
        simp only [h1, hw]
        exact ⟨(some e, k2, tr1 ++ tr2), rfl, fun h => by simp at h⟩
      | ok b2 =>
        cases b2 with
        | false =>
          simp only [h1, hw]
          exact ⟨(none, k2, tr1 ++ tr2 ++ [Action.tap 50 50]), rfl,
            fun _ => ⟨tr1 ++ tr2, by simp⟩⟩
        | true =>
          obtain ⟨c3, h3⟩ :
              ∃ x, MainPy.click_template tm score w k2 "daily_task" 0.8 = x :=
            ⟨_, rfl⟩
          obtain ⟨res3, k3, tr3⟩ := c3
          cases res3 with
          | error e =>
            simp only [h1, hw, h3]
            exact ⟨(some e, k3, tr1 ++ tr2 ++ tr3), rfl, fun h => by simp at h⟩
          | ok b3 =>
            cases b3 with
            | false =>
              simp only [h1, hw, h3]
              exact ⟨(none, k3, tr1 ++ tr2 ++ tr3 ++ [Action.tap 50 50]), rfl,
                fun _ => ⟨tr1 ++ tr2 ++ tr3, by simp⟩⟩
            | true =>
              obtain ⟨c4, h4⟩ :
                  ∃ x, MainPy.click_template tm score w k3 "claim_reward" 0.8 = x :=
                ⟨_, rfl⟩
              obtain ⟨res4, k4, tr4⟩ := c4
              cases res4 with
              | error e =>
                simp only [h1, hw, h3, h4]
                exact ⟨(some e, k4, tr1 ++ tr2 ++ tr3 ++ tr4), rfl,
                  fun h => by simp at h⟩
              | ok b4 =>
                simp only [h1, hw, h3, h4]
                exact ⟨(none, k4, tr1 ++ tr2 ++ tr3 ++ tr4 ++ [Action.tap 50 50]),
                  rfl, fun _ => ⟨tr1 ++ tr2 ++ tr3 ++ tr4, by simp⟩⟩

/-- Witness for C1 amended: a world where the first step fails benignly; the
script completes and the trace ends with the back-tap. -/
theorem run_daily_tasks_back_tap_witness :
    ∃ r, MainPy.run_daily_tasks tmE score0 wNoneA 0 0 = some r
      ∧ (r.1 = none → ∃ p, r.2.2 = p ++ [Action.tap 50 50]) :=
  run_daily_tasks_back_tap tmE score0 wNoneA 0 0 (le_refl 0)

/-- Counterexample to C8: over backends with identical per-attempt outcomes
and identical backend costs, the related worlds wNoneA and wNoneB make the two
wait_for_template implementations return different results: main.py spends an
extra second per attempt on its settle sleep, so within timeout 2 it performs
one capture where mokuai_fz.py performs two. -/
theorem drivers_differ_on_wait_schedule :
    RWorld wNoneA wNoneB
    ∧ MainPy.wait_for_template tmE score0 wNoneA 0 "x" 2 1 0 0.8
        = some (.ok false, 1, 2, [Action.capture])
    ∧ Mokuai.wait_for_template tmE score0 wNoneB 0 "x" 2 1 0 0.8
        = some (.ok false, 2, 2, [Action.capture, Action.capture])
    ∧ MainPy.wait_for_template tmE score0 wNoneA 0 "x" 2 1 0 0.8
        ≠ Mokuai.wait_for_template tmE score0 wNoneB 0 "x" 2 1 0 0.8 :=
  ⟨fun _ => ⟨rfl, rfl, rfl⟩,
   by with_unfolding_all decide,
   by with_unfolding_all decide,
   by with_unfolding_all decide⟩

/-- C8 amended: the two drivers are behaviorally equivalent operation by
operation over corresponding backends, once mokuai_fz.py is given a
per-attempt backend cost larger by the one-second settle sleep that main.py
adds inside take_screenshot; both use the one shared find_template.  Without
that cost adjustment the polling schedules differ (see the counterexample). -/
theorem drivers_equivalent_modulo_settle_cost :
    (∀ (a : ObsA) (b : ObsB), RObs a b →
      MainPy.take_screenshot a = Mokuai.take_screenshot b)
    ∧ (∀ x y : ℤ, MainPy.click x y = Mokuai.click x y)
    ∧ (∀ x1 y1 x2 y2 d : ℤ, MainPy.swipe x1 y1 x2 y2 d = Mokuai.swipe x1 y1 x2 y2 d)
    ∧ (∀ (wA : WorldA) (wB : WorldB), RWorld wA wB →
        ∀ (tm : TemplMap) (score : ScoreFn) (k : ℕ) (name : String) (thr : ℚ),
          MainPy.click_template tm score wA k name thr
            = Mokuai.click_template tm score wB k name thr)
    ∧ (∀ (wA : WorldA) (wB : WorldB), RWorld wA wB →
        ∀ (tm : TemplMap) (score : ScoreFn) (k : ℕ) (name : String)
          (timeout interval bc thr : ℚ),
          MainPy.wait_for_template tm score wA k name timeout interval bc thr
            = Mokuai.wait_for_template tm score wB k name timeout interval (bc + 1) thr)
    ∧ (∀ (wA : WorldA) (wB : WorldB), RWorld wA wB →
        ∀ (tm : TemplMap) (score : ScoreFn) (bc : ℚ) (k : ℕ),
          MainPy.run_daily_tasks tm score wA bc k
            = Mokuai.run_daily_tasks tm score wB (bc + 1) k)
    ∧ (∀ (wA : WorldA) (wB : WorldB), RWorld wA wB →
        ∀ (tm : TemplMap) (score : ScoreFn) (bc : ℚ) (n k : ℕ),
          MainPy.main_loop_n tm score wA bc n k
            = Mokuai.main_loop_n tm score wB (bc + 1) n k) :=
  ⟨fun _ _ h => take_screenshot_eq h,
   fun _ _ => rfl,
   fun _ _ _ _ _ => rfl,
   fun _ _ h tm score k name thr => click_template_eq h tm score k name thr,
   fun _ _ h tm score k name timeout interval bc thr =>
     wait_for_template_eq h tm score k name timeout interval bc thr,
   fun _ _ h tm score bc k => run_daily_tasks_eq h tm score bc k,
   fun _ _ h tm score bc n k => main_loop_n_eq h tm score bc n k⟩

/-- Witness for C8 amended: a concrete pair of corresponding worlds on which
the two click_template implementations agree. -/
theorem drivers_equivalent_modulo_settle_cost_witness :
    MainPy.click_template tmE score0 wNoneA 0 "x" 0.8
      = Mokuai.click_template tmE score0 wNoneB 0 "x" 0.8 :=
  drivers_equivalent_modulo_settle_cost.2.2.2.1 wNoneA wNoneB
    (fun _ => ⟨rfl, rfl, rfl⟩) tmE score0 0 "x" 0.8

end LDFZJH
